import Mathlib

/-!
Verification development for the women-safety multi-feed monitoring pipeline.

The Python sources are shallowly embedded here:
* `camera_monitor.py`   (single-camera variant, `SafetyMonitor`):
  `analyze_scene`, the dict-based cooldown gate of `send_alert`.
* `enhanced_safety_model.py` (`EnhancedSafetyMonitor`):
  `calculate_speed`, `detect_loitering`, `detect_running`,
  `analyze_crowd_density`, `calculate_bbox_area`, `is_in_risk_zone`,
  `analyze_scene_advanced`, the cooldown/severity logic of `send_alert`.
* `multi_camera_monitor.py` (`MultiCameraMonitor`):
  `analyze_frame`, the alert branch of `camera_worker`, and one loop
  iteration of `alert_sender_worker` together with a small pipeline
  run model.

Numbers: Python floats are idealised as exact rationals (`ℚ`); the one
place the code uses `math.sqrt` (`calculate_speed`) is modelled over `ℝ`
with `Real.sqrt`.  Timestamps (`time.time()`) are rationals.  Severity
levels, alert types and crowd buckets are the string constants of the
source.
-/

namespace WS

/-! ## Shared data model -/

/-- A detection box as delivered by the detection adapter after the
`.cpu().numpy()` conversion: class id, confidence, and the xyxy corners. -/
structure Det where
  cls : Nat
  conf : ℚ
  x1 : ℚ
  y1 : ℚ
  x2 : ℚ
  y2 : ℚ
deriving DecidableEq

/-- A bounding box `(x1, y1, x2, y2)` in pixel coordinates. -/
structure BBox where
  x1 : ℚ
  y1 : ℚ
  x2 : ℚ
  y2 : ℚ
deriving DecidableEq

def Det.toBBox (d : Det) : BBox := ⟨d.x1, d.y1, d.x2, d.y2⟩

/-- A risk-zone rectangle `(x1, y1, x2, y2)` from a camera's configuration. -/
structure Zone where
  x1 : ℚ
  y1 : ℚ
  x2 : ℚ
  y2 : ℚ
deriving DecidableEq

/-! ## camera_monitor.py — `SafetyMonitor.analyze_scene`

The single-camera variant takes the integer pixel corners produced by
`map(int, box.xyxy[0])`, so its detections carry `ℤ` coordinates. -/

/-- A detection as consumed by `SafetyMonitor.analyze_scene`:
class id, confidence, and the integer corners `x1, y1, x2, y2`. -/
structure DetCM where
  cls : Nat
  conf : ℚ
  x1 : ℤ
  y1 : ℤ
  x2 : ℤ
  y2 : ℤ
deriving DecidableEq

/-- The person filter of `analyze_scene`:
`int(box.cls[0]) == 0` and `confidence > 0.5`. -/
def keepPersonCM (d : DetCM) : Bool :=
  d.cls == 0 && decide (d.conf > 1/2)

/-- The aspect-ratio bucket test of `analyze_scene`:
`aspect = h / (w + 1e-6)`, bucket "women" iff `aspect > 2.2`. -/
def aspectHigh (d : DetCM) : Bool :=
  let h : ℚ := ((d.y2 - d.y1 : ℤ) : ℚ)
  let w : ℚ := ((d.x2 - d.x1 : ℤ) : ℚ)
  decide (h / (w + 1/1000000) > 11/5)

/-- The analysis record returned by `SafetyMonitor.analyze_scene`. -/
structure SceneCM where
  men_count : Nat
  women_count : Nat
  total : Nat
  severity : String
  alert_type : String
  description : String
  brightness : ℚ
  is_dark : Bool
deriving DecidableEq

/-- Embeds `SafetyMonitor.analyze_scene`: filters detections to confident persons,
splits them into two aspect-ratio buckets, checks lighting
(`brightness < 70`) and applies the decision ladder.  `dets` is the nested
`for detection in detections: for box in detection.boxes` structure;
`brightness` is the frame's grey-level mean. -/
def analyze_scene (dets : List (List DetCM)) (brightness : ℚ) : SceneCM :=
  let persons := dets.flatten.filter keepPersonCM
  let women := persons.filter fun d => aspectHigh d
  let men := persons.filter fun d => !aspectHigh d
  let is_dark : Bool := decide (brightness < 70)
  let sad : String × String × String :=
    if women.length = 1 ∧ (men.length = 0 ∧ is_dark = true) then
      ("HIGH", "Lone Woman - Dark Area",
        "Single woman detected in poorly lit area. Possible danger.")
    else if women.length = 1 ∧ men.length ≥ 2 then
      ("MAY_RISK", "Woman Surrounded by Men",
        "Single woman among multiple men. Situation may be unsafe.")
    else if (1 ≤ women.length ∧ women.length ≤ 2) ∧ men.length ≥ 3 then
      ("MAY_RISK", "Few Women in Male Group",
        "Few women surrounded by many men.")
    else if women.length = 1 ∧ ¬ is_dark = true then
      ("MEDIUM", "Lone Woman", "Lone woman detected in well-lit area.")
    else
      ("LOW", "Normal Activity",
        toString persons.length ++ " person(s) detected")
  { men_count := men.length
    women_count := women.length
    total := persons.length
    severity := sad.1
    alert_type := sad.2.1
    description := sad.2.2
    brightness := brightness
    is_dark := is_dark }

/-! ## enhanced_safety_model.py — crowd density -/

/-- Embeds `EnhancedSafetyMonitor.calculate_bbox_area`:
`(bbox[2] - bbox[0]) * (bbox[3] - bbox[1])`. -/
def calculate_bbox_area (b : BBox) : ℚ := (b.x2 - b.x1) * (b.y2 - b.y1)

/-- Embeds `EnhancedSafetyMonitor.analyze_crowd_density`: bucket name together with
the density ratio.  `frameH`/`frameW` are `frame_shape[0]`/`frame_shape[1]`.
An empty detection list short-circuits to `("empty", 0)`. -/
def analyze_crowd_density (persons : List BBox) (frameH frameW : ℚ) :
    String × ℚ :=
  if persons.length = 0 then ("empty", 0)
  else
    let frame_area := frameH * frameW
    let person_area := (persons.map calculate_bbox_area).sum
    let density_ratio := person_area / frame_area
    if density_ratio > 3/5 then ("very_crowded", density_ratio)
    else if density_ratio > 3/10 then ("crowded", density_ratio)
    else if density_ratio > 1/10 then ("moderate", density_ratio)
    else ("sparse", density_ratio)

/-- Modelled from the spec: the crowd-density bucket as a function of the
ratio alone — ">0.6 very-crowded, >0.3 crowded, >0.1 moderate, else
sparse" — used to compare `analyze_crowd_density` against the spec's
decision table. -/
def densityBucketSpec (r : ℚ) : String :=
  if r > 3/5 then "very_crowded"
  else if r > 3/10 then "crowded"
  else if r > 1/10 then "moderate"
  else "sparse"

/-! ## enhanced_safety_model.py — tracker -/

/-- One entry of `self.person_tracks`: bounded position/timestamp deques
(`maxlen=30`), first-seen and last-alerted timestamps. -/
structure Track where
  positions : List (ℚ × ℚ)
  timestamps : List ℚ
  first_seen : Option ℚ
  last_alerted : Option ℚ
deriving DecidableEq

/-- The fresh track produced by the `defaultdict` factory. -/
def Track.empty : Track := ⟨[], [], none, none⟩

/-- Models `deque(maxlen=30).append`: drop the oldest element once 30 samples are
retained. -/
def pushCap30 {α : Type} (xs : List α) (x : α) : List α :=
  if xs.length < 30 then xs ++ [x] else xs.tail ++ [x]

/-- Python's binary `max` on rationals. -/
def qmax (a b : ℚ) : ℚ := if a ≤ b then b else a

/-- Python's binary `min` on rationals. -/
def qmin (a b : ℚ) : ℚ := if b ≤ a then b else a

/-- Python `max` over a list (the guard in `detect_loitering` only applies
it to nonempty lists; the default is irrelevant there). -/
def listMax (xs : List ℚ) : ℚ := xs.foldl qmax (xs.headD 0)

/-- Python `min` over a list. -/
def listMin (xs : List ℚ) : ℚ := xs.foldl qmin (xs.headD 0)

/-- The bounding extent used by `detect_loitering`:
`max(max(xs) - min(xs), max(ys) - min(ys))` over the retained samples. -/
def boundingExtent (ps : List (ℚ × ℚ)) : ℚ :=
  qmax (listMax (ps.map Prod.fst) - listMin (ps.map Prod.fst))
    (listMax (ps.map Prod.snd) - listMin (ps.map Prod.snd))

/-- Embeds `EnhancedSafetyMonitor.detect_loitering`: requires a first-seen
timestamp, dwell `current_time - first_seen > 300`, strictly more than 10
retained samples, and bounding extent `< 100`. -/
def detect_loitering (t : Track) (current_time : ℚ) : Bool :=
  match t.first_seen with
  | none => false
  | some fs =>
    let time_in_area := current_time - fs
    if time_in_area > 300 then
      if t.positions.length > 10 then
        if boundingExtent t.positions < 100 then true else false
      else false
    else false

/-! ## The dict-based cooldown gate (camera_monitor / enhanced model)

`send_alert` in both single-camera variants begins with
```
if camera_id in self.last_alert_time:
    if now - self.last_alert_time[camera_id] < self.alert_cooldown:
        return False
```
with `alert_cooldown = 30`, and assigns
`self.last_alert_time[camera_id] = now` when an alert goes through. -/

/-- The cooldown check at the top of `send_alert`:
`true` means the gate lets the call proceed. -/
def cooldownPermit (last_alert_time : String → Option ℚ) (camera_id : String)
    (now : ℚ) : Bool :=
  match last_alert_time camera_id with
  | none => true
  | some t => if now - t < 30 then false else true

/-- Models the assignment `self.last_alert_time[camera_id] = now`. -/
def recordAlertTime (last_alert_time : String → Option ℚ) (camera_id : String)
    (now : ℚ) : String → Option ℚ :=
  Function.update last_alert_time camera_id (some now)

/-! ## enhanced_safety_model.py — speed -/

/-- One segment of the polyline:
`math.sqrt((x2-x1)**2 + (y2-y1)**2)` over `ℝ`. -/
noncomputable def segmentDist (p q : ℚ × ℚ) : ℝ :=
  Real.sqrt (((q.1 - p.1 : ℚ) : ℝ) ^ 2 + ((q.2 - p.2 : ℚ) : ℝ) ^ 2)

/-- Embeds `EnhancedSafetyMonitor.calculate_speed`: zero for fewer than two
samples; otherwise the loop `for i in range(1, len(positions))`
accumulates the segment distances, and the total is divided by
`timestamps[-1] - timestamps[0]` when that difference is positive. -/
noncomputable def calculate_speed (positions : List (ℚ × ℚ))
    (timestamps : List ℚ) : ℝ :=
  if positions.length < 2 then 0
  else
    let total_distance :=
      (positions.zip positions.tail).foldl
        (fun acc pq => acc + segmentDist pq.1 pq.2) 0
    let time_diff := timestamps.getLastD 0 - timestamps.headD 0
    if time_diff > 0 then total_distance / ((time_diff : ℚ) : ℝ) else 0

/-- The total polyline length of a sample sequence, written as the direct
recursion over consecutive pairs; compared against the accumulator loop of
`calculate_speed`. -/
noncomputable def polylineLength : List (ℚ × ℚ) → ℝ
  | [] => 0
  | [_] => 0
  | p :: q :: rest => segmentDist p q + polylineLength (q :: rest)

/-- Embeds `EnhancedSafetyMonitor.detect_running`: `speed > 50`. -/
def detect_running (speed : ℝ) : Prop := speed > 50

/-! ## enhanced_safety_model.py — risk zones and scene analysis -/

/-- Embeds `EnhancedSafetyMonitor.is_in_risk_zone`: the person's box centre lies
inside some configured zone rectangle.  The zones are the
`risk_zones` list of the camera's `camera_locations` entry. -/
def is_in_risk_zone (b : BBox) (risk_zones : List Zone) : Bool :=
  let person_center_x := (b.x1 + b.x2) / 2
  let person_center_y := (b.y1 + b.y2) / 2
  risk_zones.any fun z =>
    decide (z.x1 ≤ person_center_x ∧ person_center_x ≤ z.x2 ∧
      z.y1 ≤ person_center_y ∧ person_center_y ≤ z.y2)

/-- The person filter of `analyze_scene_advanced`:
`int(box.cls[0]) == 0 and float(box.conf[0]) > 0.5`. -/
def keepPersonE (d : Det) : Bool :=
  d.cls == 0 && decide (d.conf > 1/2)

/-- The box centre `((bbox[0]+bbox[2])/2, (bbox[1]+bbox[3])/2)`. -/
def detCenter (d : Det) : ℚ × ℚ := ((d.x1 + d.x2) / 2, (d.y1 + d.y2) / 2)

/-- One entry of the `persons` list built by `analyze_scene_advanced`:
the index of the box in its detection group, the box, its centre and its
confidence. -/
structure PersonE where
  id : Nat
  bbox : BBox
  center : ℚ × ℚ
  confidence : ℚ
deriving DecidableEq

/-- The `persons` list of `analyze_scene_advanced`: every confident person
box of every detection group, keeping the index `i` from
`enumerate(detection.boxes)`. -/
def extractPersons (dets : List (List Det)) : List PersonE :=
  (dets.map fun g =>
    (g.enum.filter fun p => keepPersonE p.2).map fun p =>
      ⟨p.1, p.2.toBBox, detCenter p.2, p.2.conf⟩).flatten

/-- The tracking update performed for one kept detection:
set `first_seen` on the first sighting and append centre and timestamp to
the bounded deques. -/
def updateTrack (tr : Track) (center : ℚ × ℚ) (t : ℚ) : Track :=
  { positions := pushCap30 tr.positions center
    timestamps := pushCap30 tr.timestamps t
    first_seen := match tr.first_seen with
      | none => some t
      | some fs => some fs
    last_alerted := tr.last_alerted }

/-- The tracking side of the extraction loop for one detection group:
each kept box at index `i` updates `person_tracks["person_i"]`
(tracks are keyed here by the numeric index). -/
def updateTracksGroup (tracks : Nat → Track) (g : List Det) (t : ℚ) :
    Nat → Track :=
  (g.enum.filter fun p => keepPersonE p.2).foldl
    (fun trks p => Function.update trks p.1 (updateTrack (trks p.1) (detCenter p.2) t))
    tracks

/-- The tracking update over all detection groups
(`for detection in detections`). -/
def updateTracksAll (tracks : Nat → Track) (dets : List (List Det)) (t : ℚ) :
    Nat → Track :=
  dets.foldl (fun trks g => updateTracksGroup trks g t) tracks

/-- The analysis record returned by `analyze_scene_advanced`. -/
structure AnalysisE where
  person_count : Nat
  severity : String
  alert_type : String
  description : String
  brightness : ℚ
  is_dark : Bool
  crowd_level : String
  crowd_density : ℚ
  risk_factors : List String
  persons : List PersonE

section
open Classical

/-- Embeds `EnhancedSafetyMonitor.analyze_scene_advanced`.  Inputs: the mutable
`self.person_tracks` state (keyed by the numeric part of `"person_i"`),
the frame's grey-level mean and shape, the detection groups, the risk
zones of the camera's `camera_locations` entry, and `time.time()`.
Returns the analysis together with the updated tracking state (the
method's mutation of `self.person_tracks`). -/
noncomputable def analyze_scene_advanced (tracks0 : Nat → Track)
    (brightness frameH frameW : ℚ) (dets : List (List Det))
    (risk_zones : List Zone) (current_time : ℚ) :
    AnalysisE × (Nat → Track) :=
  let persons := extractPersons dets
  let tracks := updateTracksAll tracks0 dets current_time
  let is_dark : Bool := decide (brightness < 80)
  let is_very_dark : Bool := decide (brightness < 50)
  let cd := analyze_crowd_density (persons.map PersonE.bbox) frameH frameW
  let num_persons := persons.length
  let sadf : String × String × String × List String :=
    if num_persons = 1 ∧ is_very_dark = true then
      ("CRITICAL", "Lone Woman - Very Dark Area",
        "⚠️ URGENT: Single person in very poorly lit area",
        ["Very poor lighting", "Isolated individual"])
    else if num_persons = 1 ∧ is_dark = true then
      if detect_loitering (tracks 0) current_time = true then
        ("CRITICAL", "Loitering Detected - Dark Area",
          "Person staying in dark area for extended period",
          ["Loitering behavior", "Poor lighting"])
      else
        ("HIGH", "Lone Woman - Dark Area",
          "Single person detected in poorly lit area",
          ["Poor lighting", "Isolated individual"])
    else if num_persons = 2 then
      let in_risk_zone := persons.any fun p => is_in_risk_zone p.bbox risk_zones
      if in_risk_zone = true ∧ is_dark = true then
        ("CRITICAL", "Multiple Persons in Risk Zone",
          "Two persons detected in high-risk area with poor lighting",
          ["High-risk location", "Poor lighting"])
      else if is_dark = true then
        ("HIGH", "Two Persons - Dark Area",
          "Two persons in poorly lit area. Monitoring situation.",
          ["Poor lighting"])
      else
        ("MEDIUM", "Two Persons Detected",
          "Two persons in frame. Routine monitoring.", [])
    else if num_persons = 1 then
      let speed := calculate_speed (tracks 0).positions (tracks 0).timestamps
      if detect_running speed then
        ("HIGH", "Running Person Detected",
          "Person running - possible emergency or chase situation",
          ["Rapid movement"])
      else
        ("MEDIUM", "Lone Woman Detected",
          "Single person walking alone. Monitoring.", [])
    else if cd.1 = "very_crowded" then
      ("MEDIUM", "Very Crowded Area",
        "High crowd density detected (" ++ toString num_persons ++ " persons)",
        ["Crowd safety concern"])
    else if 3 ≤ num_persons then
      ("LOW", "Multiple Persons",
        toString num_persons ++ " persons detected. Area appears safe.", [])
    else
      ("LOW", "Normal Activity",
        toString num_persons ++ " person(s) detected", [])
  (⟨num_persons, sadf.1, sadf.2.1, sadf.2.2.1, brightness, is_dark,
      cd.1, cd.2, sadf.2.2.2, persons⟩,
    tracks)

end

/-! ## enhanced_safety_model.py — `send_alert`

After the cooldown check, an alert is posted for severities
CRITICAL/HIGH/MEDIUM; `self.last_alert_time[camera_id] = current_time`
runs only on an HTTP 200 response. -/

/-- The severity filter of `EnhancedSafetyMonitor.send_alert`:
`analysis['severity'] in ['CRITICAL', 'HIGH', 'MEDIUM']`. -/
def qualifiesEnh (severity : String) : Bool :=
  ["CRITICAL", "HIGH", "MEDIUM"].contains severity

/-- The gate/dispatch skeleton of `EnhancedSafetyMonitor.send_alert`.
`dispatch_ok` abstracts the remote endpoint answering with status 200.
Result: (an alert was built and posted, the post succeeded, the new
`last_alert_time` mapping).  The timestamp is recorded only in the
success branch, exactly as in the source. -/
def enhanced_send_alert (m : String → Option ℚ) (camera_id : String)
    (severity : String) (current_time : ℚ) (dispatch_ok : Bool) :
    Bool × Bool × (String → Option ℚ) :=
  if cooldownPermit m camera_id current_time = false then (false, false, m)
  else if qualifiesEnh severity = true then
    if dispatch_ok then
      (true, true, recordAlertTime m camera_id current_time)
    else
      (true, false, m)
  else (false, false, m)

/-! ## multi_camera_monitor.py — `analyze_frame` -/

/-- The analysis record returned by `MultiCameraMonitor.analyze_frame`. -/
structure AnalysisMC where
  person_count : Nat
  severity : String
  alert_type : String
  brightness : ℚ
  is_dark : Bool
  persons : List (BBox × ℚ)
deriving DecidableEq

/-- Embeds `MultiCameraMonitor.analyze_frame`: filters confident person boxes,
checks lighting and applies the five-rule ladder. -/
def analyze_frame (dets : List (List Det)) (brightness : ℚ) : AnalysisMC :=
  let persons := (dets.map fun g =>
    (g.filter keepPersonE).map fun d => (d.toBBox, d.conf)).flatten
  let is_dark : Bool := decide (brightness < 80)
  let num_persons := persons.length
  let sa : String × String :=
    if num_persons = 1 ∧ brightness < 50 then
      ("CRITICAL", "Lone Woman - Very Dark Area")
    else if num_persons = 1 ∧ is_dark = true then
      ("HIGH", "Lone Woman - Dark Area")
    else if num_persons = 2 ∧ is_dark = true then
      ("HIGH", "Two Persons - Dark Area")
    else if num_persons = 1 then
      ("MEDIUM", "Lone Woman Detected")
    else if num_persons ≥ 3 then
      ("LOW", "Multiple Persons")
    else
      ("LOW", "Normal Activity")
  { person_count := num_persons
    severity := sa.1
    alert_type := sa.2
    brightness := brightness
    is_dark := is_dark
    persons := persons }

/-! ## multi_camera_monitor.py — `camera_worker` alert branch -/

/-- One camera's configuration entry (`self.cameras[cam_id]`). -/
structure CameraConfig where
  source : String
  name : String
  lat : ℚ
  lng : ℚ
  enabled : Bool

/-- The alert payload built by `camera_worker` (the `alert_data` dict).
The ISO timestamp is modelled by the numeric time of the enqueue. -/
structure AlertData where
  place : String
  type : String
  severity : String
  lat : ℚ
  lng : ℚ
  time : ℚ
  description : String
  cameraId : String
  personCount : Nat
  lighting : String
  brightnessLevel : ℤ
deriving DecidableEq

/-- The severity filter of `camera_worker`:
`analysis['severity'] in ['CRITICAL', 'HIGH', 'MEDIUM']`. -/
def qualifiesMC (severity : String) : Bool :=
  ["CRITICAL", "HIGH", "MEDIUM"].contains severity

/-- The `alert_data` dict construction inside `camera_worker`. -/
def buildAlertMC (cfg : CameraConfig) (cam_id : String) (a : AnalysisMC)
    (current_time : ℚ) : AlertData :=
  { place := cfg.name
    type := a.alert_type
    severity := a.severity
    lat := cfg.lat
    lng := cfg.lng
    time := current_time
    description := toString a.person_count ++ " person(s) detected"
    cameraId := cam_id.toUpper
    personCount := a.person_count
    lighting := if a.is_dark then "Dark" else "Well-lit"
    brightnessLevel := ⌊a.brightness⌋ }

/-- The per-worker alert state: the local `last_alert_time` (initialised
to `0`), the per-camera `alerts_sent` counter, and the worker's view of
the alert queue (the events it has enqueued, in order). -/
structure WorkerState where
  last_alert_time : ℚ
  alerts_sent : Nat
  queue : List AlertData
deriving DecidableEq

/-- The starting state of a worker: `last_alert_time = 0`, no alerts. -/
def WorkerState.init : WorkerState := ⟨0, 0, []⟩

/-- The alert branch of `camera_worker` for one analyzed frame: if the
severity qualifies and `current_time - last_alert_time > 30`
(`alert_cooldown`), the alert is enqueued, the gate timestamp is
recorded and `alerts_sent` is incremented; otherwise nothing happens. -/
def camera_worker_alert (cfg : CameraConfig) (cam_id : String)
    (a : AnalysisMC) (current_time : ℚ) (s : WorkerState) : WorkerState :=
  if qualifiesMC a.severity = true ∧ current_time - s.last_alert_time > 30 then
    { last_alert_time := current_time
      alerts_sent := s.alerts_sent + 1
      queue := s.queue ++ [buildAlertMC cfg cam_id a current_time] }
  else s

/-- A run of the alert branch over a sequence of analyzed frames, each
carrying its analysis result and its `time.time()` value. -/
def workerRun (cfg : CameraConfig) (cam_id : String) (s : WorkerState) :
    List (AnalysisMC × ℚ) → WorkerState
  | [] => s
  | (a, t) :: rest => workerRun cfg cam_id (camera_worker_alert cfg cam_id a t s) rest

/-! ## multi_camera_monitor.py — dispatcher and pipeline run -/

/-- The shared pipeline state: the alert queue, the per-camera
`alerts_sent` counters of `self.camera_stats`, and the dispatch log
(successfully forwarded events, dropped events). -/
structure PipelineState where
  queue : List AlertData
  alerts_sent : String → Nat
  delivered : List AlertData
  dropped : List AlertData

/-- The initial pipeline state: empty queue, all counters zero. -/
def PipelineState.init : PipelineState := ⟨[], fun _ => 0, [], []⟩

/-- The enqueue performed by `camera_worker` when an alert fires:
`self.alert_queue.put(alert_data)` and
`self.camera_stats[cam_id]['alerts_sent'] += 1`. -/
def worker_enqueue (s : PipelineState) (cam_id : String) (a : AlertData) :
    PipelineState :=
  { s with
    queue := s.queue ++ [a]
    alerts_sent := Function.update s.alerts_sent cam_id (s.alerts_sent cam_id + 1) }

/-- One iteration of `alert_sender_worker`: a dequeue with timeout
(an empty queue raises `Empty`, which is caught and the loop continues),
then a synchronous post; on status 200 the event counts as forwarded, on
any failure it is logged and dropped.  In both cases the event leaves the
queue and is never re-enqueued. -/
def alert_sender_iter (s : PipelineState) (dispatch_ok : Bool) :
    PipelineState :=
  match s.queue with
  | [] => s
  | a :: rest =>
    if dispatch_ok then
      { s with queue := rest, delivered := s.delivered ++ [a] }
    else
      { s with queue := rest, dropped := s.dropped ++ [a] }

/-- An interleaved event of the pipeline: a worker enqueue or one
dispatcher iteration with its outcome. -/
inductive PEvent
  | enq (cam_id : String) (a : AlertData)
  | disp (ok : Bool)

/-- One pipeline step. -/
def pipelineStep (s : PipelineState) : PEvent → PipelineState
  | .enq cam_id a => worker_enqueue s cam_id a
  | .disp ok => alert_sender_iter s ok

/-- A pipeline run over an arbitrary interleaving of events. -/
def pipelineRun (s : PipelineState) (evs : List PEvent) : PipelineState :=
  evs.foldl pipelineStep s

/-- The number of worker enqueues in an event interleaving. -/
def enqCount (evs : List PEvent) : Nat :=
  (evs.filter fun e => match e with
    | .enq _ _ => true
    | .disp _ => false).length

/-- The number of worker enqueues for one particular feed. -/
def enqCountFor (cam_id : String) (evs : List PEvent) : Nat :=
  (evs.filter fun e => match e with
    | .enq c _ => c == cam_id
    | .disp _ => false).length

/-- Every dispatch attempt in the interleaving fails
(the "always-failing endpoint" scenario). -/
def allDispatchFail (evs : List PEvent) : Prop :=
  ∀ ok : Bool, PEvent.disp ok ∈ evs → ok = false

/-! ## Severity order (spec-modelled) -/

/-- Modelled from the spec: the rank of a severity label in the order
LOW < MEDIUM < MAY_RISK < HIGH < CRITICAL (glossary and §4.5); used to
compare the source's qualification lists with the "MEDIUM or above"
threshold. -/
def sevRank : String → Nat
  | "MEDIUM" => 1
  | "MAY_RISK" => 2
  | "HIGH" => 3
  | "CRITICAL" => 4
  | _ => 0

/-- The severity filter of `SafetyMonitor.send_alert` (camera_monitor):
`analysis['severity'] in ['HIGH', 'MAY_RISK', 'MEDIUM']`. -/
def qualifiesCM (severity : String) : Bool :=
  ["HIGH", "MAY_RISK", "MEDIUM"].contains severity

/-! ## Concrete inputs used by witnesses and counterexamples -/

/-- A single confident person detection. -/
def detOne : Det := ⟨0, 9/10, 10, 10, 20, 30⟩

/-- A detection result with exactly one confident person. -/
def detsOne : List (List Det) := [[detOne]]

/-- A detection result with exactly two confident persons. -/
def detsTwo : List (List Det) := [[⟨0, 9/10, 10, 10, 20, 30⟩, ⟨0, 8/10, 40, 10, 50, 30⟩]]

/-- A detection result with exactly four confident persons; in a 100×100
frame each 10×12.5 box contributes area 125, hence a summed area of 500
and a density ratio of 0.05. -/
def detsFour : List (List Det) :=
  [[⟨0, 9/10, 0, 0, 10, 125/10⟩, ⟨0, 9/10, 20, 0, 30, 125/10⟩,
    ⟨0, 9/10, 40, 0, 50, 125/10⟩, ⟨0, 9/10, 60, 0, 70, 125/10⟩]]

/-- A track with exactly 10 retained samples at one spot, first seen at 0. -/
def trackTen : Track :=
  ⟨[(5, 5), (5, 5), (5, 5), (5, 5), (5, 5), (5, 5), (5, 5), (5, 5), (5, 5), (5, 5)],
    [0, 1, 2, 3, 4, 5, 6, 7, 8, 9], some 0, none⟩

/-- A track with 11 retained samples at one spot, first seen at 0. -/
def trackEleven : Track :=
  ⟨[(5, 5), (5, 5), (5, 5), (5, 5), (5, 5), (5, 5), (5, 5), (5, 5), (5, 5), (5, 5), (5, 5)],
    [0, 1, 2, 3, 4, 5, 6, 7, 8, 9, 10], some 0, none⟩

/-- A camera configuration as in `self.cameras['cam1']`. -/
def cfgOne : CameraConfig := ⟨"0", "Park Street - North Gate", 111085/10000, 773411/10000, true⟩

/-- The analysis of a one-person very-dark frame in the multi-camera
variant. -/
def analysisCritical : AnalysisMC :=
  ⟨1, "CRITICAL", "Lone Woman - Very Dark Area", 30, true, []⟩

/-- A sample alert payload. -/
def alertSample : AlertData :=
  ⟨"Park Street - North Gate", "Lone Woman - Very Dark Area", "CRITICAL",
    111085/10000, 773411/10000, 0, "1 person(s) detected", "CAM1", 1, "Dark", 30⟩

/-- The tracking state reached from a fresh state by twelve assessments of
the same one-person frame at times 0,…,11 (each assessment returns the
mutated `person_tracks`). -/
noncomputable def stateAfterTwelve : Nat → Track :=
  ([0, 1, 2, 3, 4, 5, 6, 7, 8, 9, 10, 11] : List ℚ).foldl
    (fun s t => (analyze_scene_advanced s 60 100 100 detsOne [] t).2)
    (fun _ => Track.empty)

/-! # Theorems -/

/-- Splitting a list by a boolean predicate partitions it: the two filter
lengths sum to the length of the list. -/
theorem length_filter_add_length_filter_not {α : Type} (l : List α) (p : α → Bool) :
    (l.filter p).length + (l.filter fun a => !p a).length = l.length := by
  induction l with
  | nil => simp
  | cons a l ih =>
    by_cases h : p a = true <;> simp [List.filter_cons, h] <;> omega

/-- C10: in the simpler deployment profile's `analyze_scene`, every
detection kept by the person-and-confidence filter lands in exactly one of
the two aspect-ratio buckets, so the two bucket counts always sum to the
reported total person count. -/
theorem claim10_bucket_partition (dets : List (List DetCM)) (brightness : ℚ) :
    (analyze_scene dets brightness).men_count + (analyze_scene dets brightness).women_count
      = (analyze_scene dets brightness).total := by
  simp only [analyze_scene]
  rw [Nat.add_comm]
  exact length_filter_add_length_filter_not _ _

/-- For a nonempty detection list, `analyze_crowd_density` returns the
density ratio together with the bucket the spec's ratio table assigns to
it. -/
theorem analyze_crowd_density_pos (ps : List BBox) (fh fw : ℚ) (h : ps ≠ []) :
    analyze_crowd_density ps fh fw =
      (densityBucketSpec ((ps.map calculate_bbox_area).sum / (fh * fw)),
        (ps.map calculate_bbox_area).sum / (fh * fw)) := by
  have hl : ¬ ps.length = 0 := by simpa using h
  simp only [analyze_crowd_density, densityBucketSpec]
  rw [if_neg hl]
  split_ifs <;> rfl

/-- C9 (amended): the crowd-density bucket follows the ratio thresholds
(>0.6 very-crowded, >0.3 crowded, >0.1 moderate, else sparse) only for a
nonempty detection set; zero detections short-circuit to the distinguished
bucket "empty" with ratio 0, not to "sparse". -/
theorem claim9_crowd_density_buckets (ps : List BBox) (fh fw : ℚ) :
    (ps = [] → analyze_crowd_density ps fh fw = ("empty", 0)) ∧
    (ps ≠ [] → analyze_crowd_density ps fh fw =
      (densityBucketSpec ((ps.map calculate_bbox_area).sum / (fh * fw)),
        (ps.map calculate_bbox_area).sum / (fh * fw))) := by
  constructor
  · intro h; subst h; rfl
  · exact analyze_crowd_density_pos ps fh fw

/-- C9 counterexample: with zero detections, `analyze_crowd_density`
returns the bucket "empty", not "sparse" as the claim states. -/
theorem claim9_counterexample :
    (analyze_crowd_density [] 100 100).1 = "empty" ∧ ("empty" : String) ≠ "sparse" :=
  ⟨rfl, by decide⟩

/-- C9 witness: a single 10×10 box in a 100×100 frame has ratio 1/100 and
the theorem pins the result to the spec bucket of that ratio. -/
theorem claim9_witness :
    ([(⟨0, 0, 10, 10⟩ : BBox)] ≠ ([] : List BBox)) ∧
    analyze_crowd_density [(⟨0, 0, 10, 10⟩ : BBox)] 100 100 =
      (densityBucketSpec (([(⟨0, 0, 10, 10⟩ : BBox)].map calculate_bbox_area).sum / (100 * 100)),
        ([(⟨0, 0, 10, 10⟩ : BBox)].map calculate_bbox_area).sum / (100 * 100)) :=
  ⟨by simp, (claim9_crowd_density_buckets _ 100 100).2 (by simp)⟩

/-- C3 (amended): for a track with a first-seen timestamp, the loitering
signal is true iff the dwell `now - first_seen` exceeds 300, STRICTLY MORE
than 10 samples (at least 11) are retained, and the bounding extent is
below 100; without a first-seen timestamp it is false.  (The claim's
"at least 10 samples" is corrected to "more than 10".) -/
theorem claim3_loitering_characterization (t : Track) (now : ℚ) :
    (∀ fs : ℚ, t.first_seen = some fs →
      (detect_loitering t now = true ↔
        (now - fs > 300 ∧ t.positions.length > 10 ∧ boundingExtent t.positions < 100))) ∧
    (t.first_seen = none → detect_loitering t now = false) := by
  constructor
  · intro fs h
    simp only [detect_loitering, h]
    split_ifs <;> simp_all
  · intro h; simp [detect_loitering, h]

/-- C3 witness: a track with 11 samples in one spot, first seen at 0 and
queried at 301, is flagged as loitering. -/
theorem claim3_witness :
    trackEleven.first_seen = some 0 ∧ detect_loitering trackEleven 301 = true :=
  ⟨rfl, ((claim3_loitering_characterization trackEleven 301).1 0 rfl).mpr
    (by norm_num [trackEleven, boundingExtent, listMax, listMin, qmax, qmin])⟩

/-- C3 counterexample: with exactly 10 retained samples, dwell 301 > 300
and extent 0 < 100, `detect_loitering` is false, contradicting the claim
that 10 samples suffice. -/
theorem claim3_counterexample :
    trackTen.first_seen = some 0 ∧ (301 : ℚ) - 0 > 300 ∧
    trackTen.positions.length = 10 ∧ boundingExtent trackTen.positions < 100 ∧
    detect_loitering trackTen 301 = false := by
  refine ⟨rfl, by norm_num, by norm_num [trackTen], ?_, ?_⟩
  · norm_num [trackTen, boundingExtent, listMax, listMin, qmax, qmin]
  · norm_num [detect_loitering, trackTen, boundingExtent, listMax, listMin, qmax, qmin]

/-- C4 (amended): the dict-based gate of the single-camera `send_alert`
variants permits iff every recorded entry for the feed is at least 30
time-units old (so no entry, or `now - last ≥ 30`; a request exactly 30
after the last recorded one succeeds), and recording a permit for one feed
never changes the decision for another feed.  The multi-camera worker's
gate, however, compares strictly (`now - last > 30`), so there a request
with `now - last ≤ 30` — including exactly 30 — does nothing. -/
theorem claim4_cooldown_gate_semantics :
    (∀ (m : String → Option ℚ) (id : String) (now : ℚ),
      cooldownPermit m id now = true ↔ (∀ t, m id = some t → 30 ≤ now - t)) ∧
    (∀ (m : String → Option ℚ) (id : String) (t : ℚ),
      m id = some t → cooldownPermit m id (t + 30) = true) ∧
    (∀ (m : String → Option ℚ) (id id2 : String) (now t2 : ℚ), id ≠ id2 →
      cooldownPermit (recordAlertTime m id2 t2) id now = cooldownPermit m id now) ∧
    (∀ (cfg : CameraConfig) (cam_id : String) (a : AnalysisMC) (t : ℚ) (s : WorkerState),
      t - s.last_alert_time ≤ 30 → camera_worker_alert cfg cam_id a t s = s) := by
  refine ⟨?_, ?_, ?_, ?_⟩
  · intro m id now
    simp only [cooldownPermit]
    cases h : m id with
    | none => simp [h]
    | some t =>
      dsimp only
      split_ifs with hlt
      · simp only [false_iff]
        push_neg
        exact ⟨t, rfl, by linarith⟩
      · simp only [true_iff]
        intro t' ht'
        have : t = t' := by injection ht'
        subst this
        exact le_of_not_lt hlt
  · intro m id t h
    simp only [cooldownPermit, h]
    have h30 : t + 30 - t = (30 : ℚ) := by ring
    rw [h30]
    norm_num
  · intro m id id2 now t2 hne
    simp [cooldownPermit, recordAlertTime, Function.update_noteq hne]
  · intro cfg cam_id a t s h
    simp only [camera_worker_alert]
    rw [if_neg]
    rintro ⟨h1, h2⟩
    linarith

/-- C4 counterexample: in the multi-camera worker, a qualifying CRITICAL
frame exactly 30 time-units after the last permitted alert is NOT
permitted — the state is unchanged — contradicting the claim that a
request exactly 30 after the last permitted one succeeds. -/
theorem claim4_counterexample :
    qualifiesMC "CRITICAL" = true ∧ (130 : ℚ) - 100 = 30 ∧
    camera_worker_alert cfgOne "cam1" analysisCritical 130 ⟨100, 0, []⟩ = ⟨100, 0, []⟩ := by
  refine ⟨by decide, by norm_num, ?_⟩
  norm_num [camera_worker_alert, qualifiesMC]

/-- C4 witness: after recording a permit at time 100, a request at time
130 (exactly the 30-unit window later) succeeds in the dict-based gate. -/
theorem claim4_witness :
    (recordAlertTime (fun _ => none) "cam1" 100) "cam1" = some 100 ∧
    cooldownPermit (recordAlertTime (fun _ => none) "cam1" 100) "cam1" (100 + 30) = true :=
  ⟨by simp [recordAlertTime], claim4_cooldown_gate_semantics.2.1 _ "cam1" 100
    (by simp [recordAlertTime])⟩

/-- One step of the worker's alert branch preserves the cooldown-spacing
invariant: gaps between consecutive queued alerts exceed 30, and the last
queued alert's timestamp equals the recorded gate timestamp. -/
theorem worker_alert_invariant (cfg : CameraConfig) (cam_id : String)
    (a : AnalysisMC) (t : ℚ) (s : WorkerState)
    (h1 : List.Chain' (fun x y : AlertData => y.time - x.time > 30) s.queue)
    (h2 : ∀ x, s.queue.getLast? = some x → x.time = s.last_alert_time) :
    List.Chain' (fun x y : AlertData => y.time - x.time > 30)
      (camera_worker_alert cfg cam_id a t s).queue ∧
    (∀ x, (camera_worker_alert cfg cam_id a t s).queue.getLast? = some x →
      x.time = (camera_worker_alert cfg cam_id a t s).last_alert_time) := by
  simp only [camera_worker_alert]
  split_ifs with hc
  · constructor
    · refine List.chain'_append.mpr ⟨h1, List.chain'_singleton _, ?_⟩
      intro x hx y hy
      simp only [List.head?_cons, Option.mem_def, Option.some.injEq] at hy
      subst hy
      have hx' := h2 x (Option.mem_def.mp hx)
      simp only [buildAlertMC, hx']
      exact hc.2
    · intro x hx
      simp only [List.getLast?_concat, Option.some.injEq] at hx
      subst hx
      rfl
  · exact ⟨h1, h2⟩

/-- The spacing invariant is preserved along any run of the worker's
alert branch. -/
theorem worker_run_invariant (cfg : CameraConfig) (cam_id : String) :
    ∀ (steps : List (AnalysisMC × ℚ)) (s : WorkerState),
      List.Chain' (fun x y : AlertData => y.time - x.time > 30) s.queue →
      (∀ x, s.queue.getLast? = some x → x.time = s.last_alert_time) →
      List.Chain' (fun x y : AlertData => y.time - x.time > 30)
        (workerRun cfg cam_id s steps).queue := by
  intro steps
  induction steps with
  | nil => intro s hq _; exact hq
  | cons st rest ih =>
    intro s hq hl
    obtain ⟨a, t⟩ := st
    simp only [workerRun]
    have hinv := worker_alert_invariant cfg cam_id a t s hq hl
    exact ih _ hinv.1 hinv.2

/-- C2 (amended): in the multi-camera feed worker the gate timestamp is
recorded at enqueue time, so over any run from the initial state every two
alerts enqueued for the same feed are more than the 30-unit cooldown
apart — the gate never permits two AlertEvents within the window,
regardless of later dispatch outcomes.  (In the single-camera variants the
timestamp is recorded only after a successful dispatch; see the
counterexample.) -/
theorem claim2_worker_cooldown_spacing (cfg : CameraConfig) (cam_id : String)
    (steps : List (AnalysisMC × ℚ)) :
    List.Pairwise (fun x y : AlertData => y.time - x.time > 30)
      (workerRun cfg cam_id WorkerState.init steps).queue := by
  have hchain := worker_run_invariant cfg cam_id steps WorkerState.init
    (by simp [WorkerState.init]) (by simp [WorkerState.init])
  haveI : IsTrans AlertData (fun x y : AlertData => y.time - x.time > 30) :=
    ⟨fun a b c h1 h2 => by linarith⟩
  exact List.chain'_iff_pairwise.mp hchain

/-- C2 counterexample: in `EnhancedSafetyMonitor.send_alert` the gate
timestamp is recorded only after a successful dispatch.  Starting from an
empty mapping, a CRITICAL alert at time 0 whose dispatch fails and a
second CRITICAL alert at time 1 are BOTH permitted (both are posted),
although they are only 1 < 30 time-units apart — refuting the claim that
the timestamp is recorded at permit time in all cited variants. -/
theorem claim2_counterexample :
    (enhanced_send_alert (fun _ => none) "0" "CRITICAL" 0 false).1 = true ∧
    (enhanced_send_alert ((enhanced_send_alert (fun _ => none) "0" "CRITICAL" 0 false).2.2)
      "0" "CRITICAL" 1 true).1 = true ∧
    ((1 : ℚ) - 0 < 30) := by
  refine ⟨?_, ?_, by norm_num⟩ <;>
    norm_num [enhanced_send_alert, cooldownPermit, qualifiesEnh]

/-- Any pipeline run conserves alert events: the final queue, delivered
and dropped lists together account for the initial state plus exactly one
entry per worker enqueue — the dispatcher removes each event once and
never re-enqueues. -/
theorem pipeline_conservation (evs : List PEvent) :
    ∀ s : PipelineState,
      (pipelineRun s evs).queue.length + (pipelineRun s evs).delivered.length +
        (pipelineRun s evs).dropped.length =
      s.queue.length + s.delivered.length + s.dropped.length + enqCount evs := by
  induction evs with
  | nil => intro s; simp [pipelineRun, enqCount]
  | cons e rest ih =>
    intro s
    have hrun : pipelineRun s (e :: rest) = pipelineRun (pipelineStep s e) rest := rfl
    rw [hrun, ih (pipelineStep s e)]
    cases e with
    | enq id a =>
      simp only [pipelineStep, worker_enqueue, enqCount, List.filter_cons]
      simp
      omega
    | disp ok =>
      cases hq : s.queue with
      | nil =>
        simp only [pipelineStep, alert_sender_iter, hq, enqCount, List.filter_cons]
        simp [hq]
      | cons hd tl =>
        cases ok <;>
          simp only [pipelineStep, alert_sender_iter, hq, enqCount, List.filter_cons] <;>
          simp [hq] <;> omega

/-- When every dispatch attempt fails, nothing is ever delivered: the
dispatcher logs and drops each event. -/
theorem pipeline_all_fail_delivered (evs : List PEvent) :
    ∀ s : PipelineState, allDispatchFail evs →
      (pipelineRun s evs).delivered = s.delivered := by
  induction evs with
  | nil => intro s _; rfl
  | cons e rest ih =>
    intro s hfail
    have hrest : allDispatchFail rest := fun ok hm => hfail ok (List.mem_cons_of_mem _ hm)
    have hrun : pipelineRun s (e :: rest) = pipelineRun (pipelineStep s e) rest := rfl
    rw [hrun, ih _ hrest]
    cases e with
    | enq id a => rfl
    | disp ok =>
      have hok : ok = false := hfail ok (List.mem_cons_self _ _)
      subst hok
      cases hq : s.queue with
      | nil => simp [pipelineStep, alert_sender_iter, hq]
      | cons hd tl => simp [pipelineStep, alert_sender_iter, hq]

/-- The per-feed `alerts_sent` counters track worker enqueues exactly,
independently of dispatch outcomes. -/
theorem pipeline_counters (evs : List PEvent) :
    ∀ (s : PipelineState) (id : String),
      (pipelineRun s evs).alerts_sent id = s.alerts_sent id + enqCountFor id evs := by
  induction evs with
  | nil => intro s id; simp [pipelineRun, enqCountFor]
  | cons e rest ih =>
    intro s id
    have hrun : pipelineRun s (e :: rest) = pipelineRun (pipelineStep s e) rest := rfl
    rw [hrun, ih (pipelineStep s e) id]
    cases e with
    | enq c a =>
      by_cases hc : c = id
      · subst hc
        simp [pipelineStep, worker_enqueue, enqCountFor, List.filter_cons,
          Function.update_same]
        omega
      · simp [pipelineStep, worker_enqueue, enqCountFor, List.filter_cons, hc,
          Function.update_noteq (Ne.symm hc)]
    | disp ok =>
      cases hq : s.queue with
      | nil => simp [pipelineStep, alert_sender_iter, hq, enqCountFor, List.filter_cons]
      | cons hd tl =>
        cases ok <;> simp [pipelineStep, alert_sender_iter, hq, enqCountFor, List.filter_cons]

/-- C6 (amended): over any interleaving of worker enqueues and dispatcher
iterations, events are conserved (each dispatched event is removed once,
never retried or re-enqueued), an always-failing endpoint delivers
nothing, and the per-feed alerts-sent counters equal the number of worker
ENQUEUES for that feed — so, contrary to the claim, they do grow under an
always-failing endpoint whenever workers enqueue alerts, because they are
incremented at enqueue time, not at dispatch time. -/
theorem claim6_dispatcher_failure (evs : List PEvent) (s : PipelineState) :
    ((pipelineRun s evs).queue.length + (pipelineRun s evs).delivered.length +
        (pipelineRun s evs).dropped.length =
      s.queue.length + s.delivered.length + s.dropped.length + enqCount evs) ∧
    (allDispatchFail evs → (pipelineRun s evs).delivered = s.delivered) ∧
    (∀ id, (pipelineRun s evs).alerts_sent id = s.alerts_sent id + enqCountFor id evs) :=
  ⟨pipeline_conservation evs s, pipeline_all_fail_delivered evs s,
    fun id => pipeline_counters evs s id⟩

/-- C6 witness: in the run "one enqueue, one failed dispatch" every
dispatch fails and nothing is delivered. -/
theorem claim6_witness :
    allDispatchFail [PEvent.enq "cam1" alertSample, PEvent.disp false] ∧
    (pipelineRun PipelineState.init
        [PEvent.enq "cam1" alertSample, PEvent.disp false]).delivered =
      PipelineState.init.delivered := by
  have hfail : allDispatchFail [PEvent.enq "cam1" alertSample, PEvent.disp false] := by
    intro ok h
    simp only [List.mem_cons, List.not_mem_nil, or_false] at h
    rcases h with h | h
    · exact absurd h (by simp)
    · injection h
  exact ⟨hfail, (claim6_dispatcher_failure _ _).2.1 hfail⟩

/-- C6 counterexample: in a run where the only dispatch attempt fails, the
feed's alerts-sent counter still grows from 0 to 1 (it is incremented by
the worker at enqueue time), contradicting the claim that the counters do
not grow when every dispatch fails. -/
theorem claim6_counterexample :
    allDispatchFail [PEvent.enq "cam1" alertSample, PEvent.disp false] ∧
    PipelineState.init.alerts_sent "cam1" = 0 ∧
    (pipelineRun PipelineState.init
        [PEvent.enq "cam1" alertSample, PEvent.disp false]).alerts_sent "cam1" = 1 := by
  refine ⟨?_, rfl, ?_⟩
  · intro ok h
    simp only [List.mem_cons, List.not_mem_nil, or_false] at h
    rcases h with h | h
    · exact absurd h (by simp)
    · injection h
  · norm_num [pipelineRun, pipelineStep, worker_enqueue, alert_sender_iter,
      PipelineState.init, Function.update]

/-- C8: each analyzer only ever produces the severities of its own ladder,
and on those severities the source's qualification lists coincide exactly
with "MEDIUM or above" in the order LOW < MEDIUM < MAY_RISK < HIGH <
CRITICAL; the multi-camera feed worker enqueues an alert and records the
gate timestamp iff the severity qualifies and the cooldown gate permits,
and a LOW severity never produces an alert. -/
theorem claim8_alert_threshold :
    (∀ (dets : List (List Det)) (b : ℚ),
      (analyze_frame dets b).severity = "LOW" ∨ (analyze_frame dets b).severity = "MEDIUM" ∨
      (analyze_frame dets b).severity = "HIGH" ∨ (analyze_frame dets b).severity = "CRITICAL") ∧
    (∀ s : String, (s = "LOW" ∨ s = "MEDIUM" ∨ s = "HIGH" ∨ s = "CRITICAL") →
      (qualifiesMC s = true ↔ 1 ≤ sevRank s)) ∧
    (∀ (dets : List (List DetCM)) (b : ℚ),
      (analyze_scene dets b).severity = "LOW" ∨ (analyze_scene dets b).severity = "MEDIUM" ∨
      (analyze_scene dets b).severity = "MAY_RISK" ∨ (analyze_scene dets b).severity = "HIGH") ∧
    (∀ s : String, (s = "LOW" ∨ s = "MEDIUM" ∨ s = "MAY_RISK" ∨ s = "HIGH") →
      (qualifiesCM s = true ↔ 1 ≤ sevRank s)) ∧
    (∀ (tracks0 : Nat → Track) (br fh fw : ℚ) (dets : List (List Det))
        (zones : List Zone) (t : ℚ),
      (analyze_scene_advanced tracks0 br fh fw dets zones t).1.severity = "LOW" ∨
      (analyze_scene_advanced tracks0 br fh fw dets zones t).1.severity = "MEDIUM" ∨
      (analyze_scene_advanced tracks0 br fh fw dets zones t).1.severity = "HIGH" ∨
      (analyze_scene_advanced tracks0 br fh fw dets zones t).1.severity = "CRITICAL") ∧
    (∀ s : String, (s = "LOW" ∨ s = "MEDIUM" ∨ s = "HIGH" ∨ s = "CRITICAL") →
      (qualifiesEnh s = true ↔ 1 ≤ sevRank s)) ∧
    (∀ (cfg : CameraConfig) (cam_id : String) (a : AnalysisMC) (t : ℚ) (s : WorkerState),
      qualifiesMC a.severity = true → t - s.last_alert_time > 30 →
      camera_worker_alert cfg cam_id a t s =
        ⟨t, s.alerts_sent + 1, s.queue ++ [buildAlertMC cfg cam_id a t]⟩) ∧
    (∀ (cfg : CameraConfig) (cam_id : String) (a : AnalysisMC) (t : ℚ) (s : WorkerState),
      ¬ (qualifiesMC a.severity = true ∧ t - s.last_alert_time > 30) →
      camera_worker_alert cfg cam_id a t s = s) ∧
    (∀ (cfg : CameraConfig) (cam_id : String) (a : AnalysisMC) (t : ℚ) (s : WorkerState),
      a.severity = "LOW" → camera_worker_alert cfg cam_id a t s = s) := by
  refine ⟨?_, ?_, ?_, ?_, ?_, ?_, ?_, ?_, ?_⟩
  · intro dets b
    simp only [analyze_frame]
    split_ifs <;> simp
  · rintro s (rfl | rfl | rfl | rfl) <;> decide
  · intro dets b
    simp only [analyze_scene]
    split_ifs <;> simp
  · rintro s (rfl | rfl | rfl | rfl) <;> decide
  · intro tracks0 br fh fw dets zones t
    simp only [analyze_scene_advanced]
    split_ifs <;> simp
  · rintro s (rfl | rfl | rfl | rfl) <;> decide
  · intro cfg cam_id a t s h1 h2
    simp only [camera_worker_alert]
    rw [if_pos ⟨h1, h2⟩]
  · intro cfg cam_id a t s h
    simp only [camera_worker_alert]
    rw [if_neg h]
  · intro cfg cam_id a t s h
    simp only [camera_worker_alert]
    rw [if_neg]
    rintro ⟨hq, _⟩
    rw [h] at hq
    exact absurd hq (by decide)

/-- C8 witness: a CRITICAL analysis at time 100 from the initial worker
state qualifies, passes the gate, and is enqueued with the timestamp
recorded. -/
theorem claim8_witness :
    qualifiesMC analysisCritical.severity = true ∧
    (100 : ℚ) - WorkerState.init.last_alert_time > 30 ∧
    camera_worker_alert cfgOne "cam1" analysisCritical 100 WorkerState.init =
      ⟨100, WorkerState.init.alerts_sent + 1,
        WorkerState.init.queue ++ [buildAlertMC cfgOne "cam1" analysisCritical 100]⟩ :=
  ⟨by decide, by norm_num [WorkerState.init],
    claim8_alert_threshold.2.2.2.2.2.2.1 cfgOne "cam1" analysisCritical 100 WorkerState.init
      (by decide) (by norm_num [WorkerState.init])⟩

/-- The polyline length is a sum of square roots, hence non-negative. -/
theorem polylineLength_nonneg (ps : List (ℚ × ℚ)) : 0 ≤ polylineLength ps := by
  induction ps with
  | nil => simp [polylineLength]
  | cons p rest ih =>
    cases rest with
    | nil => simp [polylineLength]
    | cons q rest' =>
      simp only [polylineLength]
      exact add_nonneg (Real.sqrt_nonneg _) ih

/-- The accumulator loop of `calculate_speed` computes the polyline
length. -/
theorem foldl_segment_eq (ps : List (ℚ × ℚ)) :
    ∀ acc : ℝ, (ps.zip ps.tail).foldl (fun a pq => a + segmentDist pq.1 pq.2) acc
      = acc + polylineLength ps := by
  induction ps with
  | nil => intro acc; simp [polylineLength]
  | cons p rest ih =>
    intro acc
    cases rest with
    | nil => simp [polylineLength]
    | cons q rest' =>
      simp only [List.tail_cons, List.zip_cons_cons, List.foldl_cons]
      simp only [List.tail_cons] at ih
      rw [ih (acc + segmentDist p q)]
      simp only [polylineLength]
      ring

/-- C5: the tracker speed is always non-negative; it is exactly 0 for
fewer than two samples and for zero elapsed time between oldest and newest
timestamp; and with at least two samples and positive elapsed time it
equals the total polyline length of the stored positions divided by the
elapsed time. -/
theorem claim5_speed_spec (ps : List (ℚ × ℚ)) (ts : List ℚ) :
    0 ≤ calculate_speed ps ts ∧
    (ps.length < 2 → calculate_speed ps ts = 0) ∧
    (ts.getLastD 0 - ts.headD 0 = 0 → calculate_speed ps ts = 0) ∧
    (2 ≤ ps.length → 0 < ts.getLastD 0 - ts.headD 0 →
      calculate_speed ps ts = polylineLength ps / ((ts.getLastD 0 - ts.headD 0 : ℚ) : ℝ)) := by
  refine ⟨?_, ?_, ?_, ?_⟩
  · simp only [calculate_speed]
    split_ifs with h1 h2
    · exact le_refl 0
    · rw [foldl_segment_eq ps 0, zero_add]
      exact div_nonneg (polylineLength_nonneg ps) (le_of_lt (by exact_mod_cast h2))
    · exact le_refl 0
  · intro h
    simp only [calculate_speed]
    rw [if_pos h]
  · intro h
    simp only [calculate_speed]
    split_ifs with h1 h2
    · rfl
    · exact absurd h2 (by rw [h]; norm_num)
    · rfl
  · intro h1 h2
    simp only [calculate_speed]
    rw [if_neg (by omega), if_pos h2, foldl_segment_eq ps 0, zero_add]

/-- C5 witness: two samples one time-unit apart give speed equal to the
polyline length divided by the elapsed time. -/
theorem claim5_witness :
    2 ≤ ([((0 : ℚ), (0 : ℚ)), (3, 4)]).length ∧
    (0 : ℚ) < ([(0 : ℚ), 1].getLastD 0 - [(0 : ℚ), 1].headD 0) ∧
    calculate_speed [((0 : ℚ), (0 : ℚ)), (3, 4)] [(0 : ℚ), 1] =
      polylineLength [((0 : ℚ), (0 : ℚ)), (3, 4)] /
        ((([(0 : ℚ), 1].getLastD 0 - [(0 : ℚ), 1].headD 0 : ℚ)) : ℝ) :=
  ⟨by norm_num, by norm_num,
    (claim5_speed_spec _ _).2.2.2 (by norm_num) (by norm_num)⟩

/-- Rule 1 of the decision ladder dominates: one person and brightness
below the very-dark threshold always yield CRITICAL with the
lone-person-very-dark category, whatever the state, frame, zones or
time. -/
theorem analyze_very_dark_dominates (tracks0 : Nat → Track) (brightness fh fw : ℚ)
    (dets : List (List Det)) (zones : List Zone) (t : ℚ)
    (h1 : (extractPersons dets).length = 1) (h2 : brightness < 50) :
    (analyze_scene_advanced tracks0 brightness fh fw dets zones t).1.severity = "CRITICAL" ∧
    (analyze_scene_advanced tracks0 brightness fh fw dets zones t).1.alert_type =
      "Lone Woman - Very Dark Area" := by
  have hb : decide (brightness < 50) = true := decide_eq_true h2
  constructor <;> simp [analyze_scene_advanced, h1, hb]

/-- C1 (amended): both cited analyzers evaluate their decision ladders in
priority order with first match winning, and rule 1 (one person,
brightness below 50) dominates every later rule in each of them; in
`analyze_scene_advanced` one person at brightness 30 yields CRITICAL with
the lone-person-very-dark category, two persons at brightness 90 with
nobody in a risk zone yield MEDIUM, and four persons with crowd-density
ratio 0.05 yield LOW.  In `multi_camera_monitor.analyze_frame`, however,
two persons at brightness 90 yield LOW, not MEDIUM — that ladder has no
well-lit two-person rule, so the default fires — while its rule-1
dominance and the four-person LOW vector do hold. -/
theorem claim1_risk_decision_table (tracks0 : Nat → Track) (brightness fh fw : ℚ)
    (dets : List (List Det)) (zones : List Zone) (t : ℚ) :
    ((extractPersons dets).length = 1 → brightness = 30 →
      (analyze_scene_advanced tracks0 brightness fh fw dets zones t).1.severity = "CRITICAL" ∧
      (analyze_scene_advanced tracks0 brightness fh fw dets zones t).1.alert_type =
        "Lone Woman - Very Dark Area") ∧
    ((extractPersons dets).length = 2 → brightness = 90 →
      (∀ p ∈ extractPersons dets, is_in_risk_zone p.bbox zones = false) →
      (analyze_scene_advanced tracks0 brightness fh fw dets zones t).1.severity = "MEDIUM") ∧
    ((extractPersons dets).length = 4 →
      ((extractPersons dets).map (fun p => calculate_bbox_area p.bbox)).sum / (fh * fw) = 1/20 →
      (analyze_scene_advanced tracks0 brightness fh fw dets zones t).1.severity = "LOW") ∧
    ((extractPersons dets).length = 1 → brightness < 50 →
      (analyze_scene_advanced tracks0 brightness fh fw dets zones t).1.severity = "CRITICAL" ∧
      (analyze_scene_advanced tracks0 brightness fh fw dets zones t).1.alert_type =
        "Lone Woman - Very Dark Area") ∧
    ((analyze_frame dets brightness).person_count = 2 → brightness = 90 →
      (analyze_frame dets brightness).severity = "LOW") ∧
    ((analyze_frame dets brightness).person_count = 1 → brightness < 50 →
      (analyze_frame dets brightness).severity = "CRITICAL" ∧
      (analyze_frame dets brightness).alert_type = "Lone Woman - Very Dark Area") ∧
    ((analyze_frame dets brightness).person_count = 4 →
      (analyze_frame dets brightness).severity = "LOW") := by
  refine ⟨?_, ?_, ?_, ?_, ?_, ?_, ?_⟩
  · intro h1 h2
    subst h2
    exact analyze_very_dark_dominates tracks0 30 fh fw dets zones t h1 (by norm_num)
  · intro h1 h2 h3
    subst h2
    have hany : (extractPersons dets).any (fun p => is_in_risk_zone p.bbox zones) = false := by
      rw [List.any_eq_false]
      intro p hp
      simp [h3 p hp]
    have hd80 : decide ((90 : ℚ) < 80) = false := by norm_num
    have hd50 : decide ((90 : ℚ) < 50) = false := by norm_num
    simp [analyze_scene_advanced, h1, hany, hd80, hd50]
  · intro h1 h2
    have hmap : ((extractPersons dets).map PersonE.bbox) ≠ [] := by
      intro hnil
      have := congrArg List.length hnil
      simp [h1] at this
    have hsum : (((extractPersons dets).map PersonE.bbox).map calculate_bbox_area).sum
        = ((extractPersons dets).map (fun p => calculate_bbox_area p.bbox)).sum := by
      rw [List.map_map]
      rfl
    have hcd : analyze_crowd_density ((extractPersons dets).map PersonE.bbox) fh fw
        = ("sparse", 1/20) := by
      rw [analyze_crowd_density_pos _ _ _ hmap, hsum, h2]
      norm_num [densityBucketSpec]
    simp [analyze_scene_advanced, h1, hcd]
  · intro h1 h2
    exact analyze_very_dark_dominates tracks0 brightness fh fw dets zones t h1 h2
  · intro hp hb
    subst hb
    simp only [analyze_frame] at hp ⊢
    norm_num [hp]
  · intro hp hb
    simp only [analyze_frame] at hp ⊢
    constructor <;> simp [hp, hb]
  · intro hp
    simp only [analyze_frame] at hp ⊢
    norm_num [hp]

/-- C1 witness: a single confident person at brightness 30 is assessed
CRITICAL with the lone-person-very-dark category. -/
theorem claim1_witness :
    (extractPersons detsOne).length = 1 ∧ ((30 : ℚ) = 30) ∧
    (analyze_scene_advanced (fun _ => Track.empty) 30 100 100 detsOne [] 0).1.severity
      = "CRITICAL" ∧
    (analyze_scene_advanced (fun _ => Track.empty) 30 100 100 detsOne [] 0).1.alert_type
      = "Lone Woman - Very Dark Area" := by
  have hlen : (extractPersons detsOne).length = 1 := by
    norm_num [extractPersons, detsOne, detOne, keepPersonE, List.enum]
  have h := (claim1_risk_decision_table (fun _ => Track.empty) 30 100 100 detsOne [] 0).1
    hlen rfl
  exact ⟨hlen, rfl, h.1, h.2⟩

/-- C1 counterexample: in `multi_camera_monitor.analyze_frame`, a frame
with exactly two confident persons at brightness 90 (well lit) yields
severity LOW, not the MEDIUM the claim demands for the
`(personCount=2, brightness=90, inRiskZone=false)` vector — that ladder
has no well-lit two-person rule, so the default fires.  (The analyzer has
no risk-zone input at all.) -/
theorem claim1_counterexample :
    (analyze_frame detsTwo 90).person_count = 2 ∧
    (analyze_frame detsTwo 90).severity = "LOW" ∧
    ("LOW" : String) ≠ "MEDIUM" := by
  refine ⟨?_, ?_, by decide⟩ <;>
    norm_num [analyze_frame, detsTwo, keepPersonE, Det.toBBox]

/-- C7 (amended): the assessed severity is a deterministic function of the
detection set, brightness, frame shape and zone membership TOGETHER WITH
the `person_tracks` state and the clock: whenever the person count differs
from 1 the tracker state and the time are irrelevant, but an assessment
mutates `person_tracks`, and for one-person frames that hidden state (and
the clock) can change the severity of a later assessment run on identical
declared inputs — see the counterexample. -/
theorem claim7_state_independence_multi (tracks0 tracks0' : Nat → Track)
    (brightness fh fw : ℚ) (dets : List (List Det)) (zones : List Zone) (t t' : ℚ)
    (h : (extractPersons dets).length ≠ 1) :
    (analyze_scene_advanced tracks0 brightness fh fw dets zones t).1.severity =
      (analyze_scene_advanced tracks0' brightness fh fw dets zones t').1.severity := by
  simp only [analyze_scene_advanced]
  split_ifs <;> simp_all

/-- C7 witness: a two-person frame is assessed identically from a fresh
tracking state at time 0 and from a twelve-assessment-old state at time
400. -/
theorem claim7_witness :
    (extractPersons detsTwo).length ≠ 1 ∧
    (analyze_scene_advanced (fun _ => Track.empty) 60 100 100 detsTwo [] 0).1.severity =
      (analyze_scene_advanced stateAfterTwelve 60 100 100 detsTwo [] 400).1.severity := by
  have hlen : (extractPersons detsTwo).length = 2 := by
    norm_num [extractPersons, detsTwo, keepPersonE, List.enum]
  refine ⟨by omega, ?_⟩
  exact claim7_state_independence_multi (fun _ => Track.empty) stateAfterTwelve
    60 100 100 detsTwo [] 0 400 (by omega)

/-- C7 counterexample: the same one-person frame (identical detections,
brightness 60, frame, zones) is assessed HIGH from a fresh state at time 0
but CRITICAL from the state produced by twelve earlier assessments of that
very frame, queried at time 400 — the severity depends on the hidden
mutable `person_tracks` state and the clock, and performing assessments
changes later results. -/
theorem claim7_counterexample :
    (analyze_scene_advanced (fun _ => Track.empty) 60 100 100 detsOne [] 0).1.severity
      = "HIGH" ∧
    (analyze_scene_advanced stateAfterTwelve 60 100 100 detsOne [] 400).1.severity
      = "CRITICAL" ∧
    ("HIGH" : String) ≠ "CRITICAL" := by
  refine ⟨?_, ?_, by decide⟩
  · norm_num [analyze_scene_advanced, extractPersons, detsOne, detOne, keepPersonE,
      List.enum, updateTracksAll, updateTracksGroup, updateTrack, pushCap30, detCenter,
      Det.toBBox, Track.empty, Function.update, detect_loitering, analyze_crowd_density,
      calculate_bbox_area]
  · norm_num [stateAfterTwelve, analyze_scene_advanced, extractPersons, detsOne, detOne,
      keepPersonE, List.enum, updateTracksAll, updateTracksGroup, updateTrack, pushCap30,
      detCenter, Det.toBBox, Track.empty, Function.update, detect_loitering, boundingExtent,
      listMax, listMin, qmax, qmin, analyze_crowd_density, calculate_bbox_area]

end WS
